import Mathlib

/-!
Verification of the snippet session manager (`src/snippet/manager.ts`).

The `SnippetManager` class is embedded as a pure state machine: its mutable
fields become the record `Coc.MState`, each method becomes a function
`Env → MState → MState × List Effect` where `Env` packages the external
collaborators (workspace document lookup, cursor position, template parser,
host-RPC failure switches) and `Effect` records the observable calls the
manager issues (document writes, host-editor affordances).

External collaborators (the `Snippet` template model, the diff utility and
the document adapter) are not part of the repository sources; they are
modelled from the specification and are marked as such.
-/

namespace Coc

/-- Modelled from the spec: a choice list carried by a placeholder —
an ordered list of alternative string values offered to the user. -/
structure Choice where
  options : List String
  deriving Repr, DecidableEq

/-- Modelled from the spec: a placeholder node of the template tree.
`index` is the tab-stop number (0 is the reserved final-cursor stop),
`value` the current text, `choice` the optional choice list. -/
structure Placeholder where
  index : Int
  value : String
  choice : Option Choice
  deriving Repr, DecidableEq

/-- Modelled from the spec: a node of the snippet template —
a literal text run or a placeholder. -/
inductive SnipNode where
  | text (s : String)
  | placeholder (p : Placeholder)
  deriving Repr, DecidableEq

/-- Modelled from the spec: the snippet template model (class `Snippet` of
`src/snippet/snippet.ts`, which is not among the provided sources): an
ordered sequence of literal runs and placeholder nodes; mirrors are distinct
nodes sharing an `index`. -/
structure Snippet where
  nodes : List SnipNode
  deriving Repr, DecidableEq

/-- Rendering of one node into flat text. -/
def SnipNode.render : SnipNode → String
  | .text s => s
  | .placeholder p => p.value

/-- Modelled from the spec: `snippet.toString()` — the full rendered string. -/
def Snippet.render (sn : Snippet) : String :=
  sn.nodes.foldl (fun acc n => acc ++ n.render) ""

/-- The placeholder nodes of the template, in order. -/
def Snippet.placeholders (sn : Snippet) : List Placeholder :=
  sn.nodes.filterMap fun n =>
    match n with
    | .placeholder p => some p
    | .text _ => none

/-- Modelled from the spec: `snippet.hasPlaceholder`. -/
def Snippet.hasPlaceholder (sn : Snippet) : Bool :=
  !sn.placeholders.isEmpty

/-- Modelled from the spec: `snippet.maxIndex` — the maximum placeholder
index present (0 when there is none). -/
def Snippet.maxIndex (sn : Snippet) : Int :=
  (sn.placeholders.map (fun p => p.index)).foldl max 0

/-- Modelled from the spec: the change item produced by the diff utility
(`getChangeItem` of `src/util/diff.ts`, not among the provided sources):
a single contiguous replaced region. -/
structure ChangeItem where
  offset : Nat
  removed : Nat
  added : String
  deriving Repr, DecidableEq

/-- Length of the common prefix of two character lists. -/
def commonPrefixLen : List Char → List Char → Nat
  | a :: as, b :: bs => if a = b then commonPrefixLen as bs + 1 else 0
  | _, _ => 0

/-- Modelled from the spec: `getChangeItem(oldStr, newStr)` — returns the
single replaced region (offset, removed length, inserted text), or `none`
when the strings are identical.  The common suffix is computed on the
remainders after the common prefix, so the two never overlap. -/
def getChangeItem (oldS newS : String) : Option ChangeItem :=
  if oldS = newS then none
  else
    let p := commonPrefixLen oldS.data newS.data
    let oldRest := oldS.drop p
    let newRest := newS.drop p
    let suf := commonPrefixLen oldRest.data.reverse newRest.data.reverse
    some { offset := p, removed := oldRest.length - suf,
           added := newRest.take (newRest.length - suf) }

/-- Auxiliary scan for `Snippet.findPlaceholder`: walk the nodes keeping the
running start offset `pos`; a literal run owns `[pos, pos+len)`, a
placeholder owns `[pos, pos+len]` (so a tie at a placeholder start prefers
the placeholder over the preceding literal, as the spec prescribes). -/
def Snippet.findPlaceholderGo (offset : Nat) :
    List SnipNode → Nat → Option (Placeholder × Nat)
  | [], _ => none
  | .text t :: rest, pos =>
      if offset < pos + t.length then none
      else Snippet.findPlaceholderGo offset rest (pos + t.length)
  | .placeholder p :: rest, pos =>
      if offset ≤ pos + p.value.length then some (p, pos)
      else Snippet.findPlaceholderGo offset rest (pos + p.value.length)

/-- Modelled from the spec: `snippet.findPlaceholder(change, offset)` —
locates the placeholder containing the flat offset and the offset at which
that placeholder begins, or `none` if no placeholder contains it. -/
def Snippet.findPlaceholder (sn : Snippet) (offset : Nat) :
    Option (Placeholder × Nat) :=
  Snippet.findPlaceholderGo offset sn.nodes 0

/-- Modelled from the spec: `snippet.getNewText(change, placeholder, start)` —
splice the diff's inserted text into the placeholder's current value at the
offset relative to the placeholder's start, dropping the removed span. -/
def Snippet.getNewText (p : Placeholder) (start : Nat) (c : ChangeItem) : String :=
  let rel := c.offset - start
  p.value.take rel ++ c.added ++ p.value.drop (rel + c.removed)

/-- Modelled from the spec: `snippet.replaceWith(placeholder, newText)` —
write the new value into every mirror sharing the placeholder's index. -/
def Snippet.replaceWith (sn : Snippet) (idx : Int) (newText : String) : Snippet :=
  ⟨sn.nodes.map fun n =>
    match n with
    | .placeholder p =>
        if p.index = idx then .placeholder { p with value := newText }
        else .placeholder p
    | .text t => .text t⟩

/-- Auxiliary scan for `Snippet.offsetOf`. -/
def Snippet.offsetOfGo (idx : Int) : List SnipNode → Nat → Nat
  | [], _ => 0
  | .text t :: rest, pos => Snippet.offsetOfGo idx rest (pos + t.length)
  | .placeholder p :: rest, pos =>
      if p.index = idx then pos
      else Snippet.offsetOfGo idx rest (pos + p.value.length)

/-- Modelled from the spec: `snippet.offset(marker)` — the start column of a
placeholder within the rendered line (first mirror of the index). -/
def Snippet.offsetOf (sn : Snippet) (idx : Int) : Nat :=
  Snippet.offsetOfGo idx sn.nodes 0

/-- Modelled from the spec: the view of a `Document` the manager consumes —
uri, line count, change counter, line read. -/
structure Doc where
  uri : String
  lineCount : Int
  changedtick : Int
  getline : Int → String

/-- The external environment of one manager operation: `getDocument` is
`workspace.getDocument`, `cursorLine` the 1-based result of the host's
`line('.')` call, `parse` the template parser (`new Snippet(template)`,
`none` modelling a parse exception), `disableFails` whether the
`coc#snippet#disable` host call throws, `writeOk` whether the initial
`buffer.setLines` of `insertSnippet` succeeds. -/
structure Env where
  getDocument : String → Option Doc
  cursorLine : Int
  parse : String → Option Snippet
  disableFails : Bool
  writeOk : Bool

/-- The mutable fields of `SnippetManager` (`src/snippet/manager.ts`,
lines 20-29).  `snippet = none` models the `null` reference. -/
structure MState where
  snippet : Option Snippet
  activted : Bool
  startLnum : Int
  lineCount : Int
  uri : String
  currIndex : Int
  changedtick : Int
  deriving Repr, DecidableEq

/-- Observable calls the manager issues to the document or the host editor. -/
inductive Effect where
  | disable
  | write (line : String) (start : Int)
  | selectRange (line : Int) (col : Nat) (len : Nat)
  | showChoices (line : Int) (col : Nat) (len : Nat) (options : List String)
  deriving Repr, DecidableEq

/-- Whether an effect is a document write (`buffer.setLines`). -/
def Effect.isWrite : Effect → Bool
  | .write _ _ => true
  | _ => false

/-- Whether an effect is a navigation affordance call
(`coc#snippet#range_select` or `coc#snippet#show_choices`). -/
def Effect.isJump : Effect → Bool
  | .selectRange _ _ _ => true
  | .showChoices _ _ _ _ => true
  | _ => false

/-- The `document` getter (manager.ts line 72-74):
`workspace.getDocument(this.uri)`. -/
def documentOf (env : Env) (s : MState) : Option Doc :=
  env.getDocument s.uri

/-- The fallible `coc#snippet#disable` host call. -/
def disableCall (env : Env) : Except String Unit :=
  if env.disableFails then .error ("disable failed") else .ok ()

/-- Method `detach()` (manager.ts lines 59-70).  No-op when inactive; otherwise
deactivates and clears the uri, keeps the model when it has no placeholder,
else discards it and issues the disable call whose failure is caught
(`onError`), never rethrown — which is why the result type is a plain pair,
not an exception monad. -/
def detach (env : Env) (s : MState) : MState × List Effect :=
  if !s.activted then (s, [])
  else
    let s1 : MState := { s with activted := false, uri := "" }
    match s1.snippet with
    | none => (s1, [])
    | some sn =>
      if !sn.hasPlaceholder then (s1, [])
      else
        let s2 : MState := { s1 with snippet := none }
        match disableCall env with
        | .ok _ => (s2, [.disable])
        | .error _ => (s2, [.disable])

/-- Handler `onLineChange(content)` (manager.ts lines 76-97).  Diffs the rendered
text against `content`; detaches when the edit hits no placeholder or the
terminal placeholder; otherwise splices the edit into the placeholder,
records the document's change counter, and writes the re-rendered line back
when it differs from `content`.  The `s.snippet = none` branch models a
state the running code never reaches while this handler can fire. -/
def onLineChange (env : Env) (s : MState) (content : String) :
    MState × List Effect :=
  match documentOf env s with
  | none => (s, [])
  | some doc =>
    match s.snippet with
    | none => (s, [])
    | some sn =>
      match getChangeItem sn.render content with
      | none => (s, [])
      | some change =>
        match sn.findPlaceholder change.offset with
        | none => detach env s
        | some (p, start) =>
          if p.index = 0 then detach env s
          else
            let sn1 := sn.replaceWith p.index (Snippet.getNewText p start change)
            let line := sn1.render
            let s1 : MState :=
              { s with snippet := some sn1, changedtick := doc.changedtick }
            if line = content then (s1, [])
            else (s1, [.write line s.startLnum])

/-- Method `insertSnippet(document, line, newLine)` (manager.ts lines 99-114).
Detaches an active session first; then, inside the try block, binds the uri,
parses the template, records the change counter and issues the initial
strict-indexing write.  Parse and write failures are caught and logged
(`logger.error`), so the function is total: no exception reaches the caller. -/
def insertSnippet (env : Env) (s : MState) (doc : Doc) (line : Int)
    (newLine : String) : MState × List Effect :=
  let pre := if s.activted then detach env s else (s, [])
  let s1 : MState := { pre.1 with uri := doc.uri }
  match env.parse newLine with
  | none => (s1, pre.2)
  | some sn =>
    let s2 : MState := { s1 with snippet := some sn, changedtick := doc.changedtick }
    if env.writeOk then (s2, pre.2 ++ [.write sn.render line])
    else (s2, pre.2)

/-- Method `ensureCurrentLine()` (manager.ts lines 181-188): reconcile when the
real line drifted from the rendered model. -/
def ensureCurrentLine (env : Env) (s : MState) : MState × List Effect :=
  match documentOf env s with
  | none => (s, [])
  | some doc =>
    match s.snippet with
    | none => (s, [])
    | some sn =>
      if sn.render = doc.getline s.startLnum then (s, [])
      else onLineChange env s (doc.getline s.startLnum)

/-- Method `jumpTo(marker)` (manager.ts lines 116-131): reconcile, then issue the
choice or range-select affordance and record the marker's index as focused.
The `none` branch of the snippet match models the state after a detach
during reconciliation, where the running code would fault before reaching
the affordance call or the index assignment. -/
def jumpTo (env : Env) (s : MState) (marker : Placeholder) :
    MState × List Effect :=
  let r := ensureCurrentLine env s
  let s1 := r.1
  match s1.snippet with
  | none => (s1, r.2)
  | some sn =>
    let col := sn.offsetOf marker.index + 1
    let len := marker.value.length
    let eff :=
      match marker.choice with
      | some c => Effect.showChoices (s1.startLnum + 1) col len c.options
      | none => Effect.selectRange (s1.startLnum + 1) col len
    ({ s1 with currIndex := marker.index }, r.2 ++ [eff])

/-- Method `checkPosition()` (manager.ts lines 167-174): detach and report invalid
when the cursor left the bound line. -/
def checkPosition (env : Env) (s : MState) : Bool × MState × List Effect :=
  if env.cursorLine - 1 ≠ s.startLnum then
    let r := detach env s
    (false, r.1, r.2)
  else (true, s, [])

/-- Method `jumpNext()` (manager.ts lines 133-148): guard the position, compute the
wraparound successor index, set it as focused, and jump when a placeholder
with that index exists. -/
def jumpNext (env : Env) (s : MState) : MState × List Effect :=
  match s.snippet with
  | none => (s, [])
  | some sn =>
    let c := checkPosition env s
    if !c.1 then (c.2.1, c.2.2)
    else
      let idx := if s.currIndex = sn.maxIndex then 0 else s.currIndex + 1
      let s2 : MState := { c.2.1 with currIndex := idx }
      match sn.placeholders.find? (fun p => p.index == idx) with
      | none => (s2, c.2.2)
      | some p =>
        let r := jumpTo env s2 p
        (r.1, c.2.2 ++ r.2)

/-- Method `jumpPrev()` (manager.ts lines 150-165): the wraparound predecessor. -/
def jumpPrev (env : Env) (s : MState) : MState × List Effect :=
  match s.snippet with
  | none => (s, [])
  | some sn =>
    let c := checkPosition env s
    if !c.1 then (c.2.1, c.2.2)
    else
      let idx := if s.currIndex = 0 then sn.maxIndex else s.currIndex - 1
      let s2 : MState := { c.2.1 with currIndex := idx }
      match sn.placeholders.find? (fun p => p.index == idx) with
      | none => (s2, c.2.2)
      | some p =>
        let r := jumpTo env s2 p
        (r.1, c.2.2 ++ r.2)

/-- The change-notification payload the handler inspects
(`e.textDocument.uri`). -/
structure ChangeEvent where
  uri : String

/-- Handler `onDocumentChange(e)` (manager.ts lines 190-209): ignore when inactive,
unbound or foreign; detach on a line-count change; ignore a counter delta of
exactly one (the session's own write); detach when the content is identical
under a stale counter; otherwise reconcile via `onLineChange`. -/
def onDocumentChange (env : Env) (s : MState) (e : ChangeEvent) :
    MState × List Effect :=
  match documentOf env s with
  | none => (s, [])
  | some doc =>
    if !s.activted then (s, [])
    else if s.uri ≠ e.uri then (s, [])
    else if doc.lineCount ≠ s.lineCount then detach env s
    else
      match s.snippet with
      | none => (s, [])
      | some sn =>
        if doc.changedtick - s.changedtick = 1 then (s, [])
        else if doc.getline s.startLnum = sn.render then detach env s
        else onLineChange env s (doc.getline s.startLnum)

/-- The template `"foo(${1:bar}, ${2:baz})$0"` after parsing (the spec's
concrete scenario). -/
def sampleSnippet : Snippet :=
  ⟨[.text "foo(", .placeholder ⟨1, "bar", none⟩, .text ", ",
    .placeholder ⟨2, "baz", none⟩, .text ")", .placeholder ⟨0, "", none⟩]⟩

/-- A template with a mirrored tab-stop: `"${1:ab}-${1:ab}"`. -/
def mirrorSnippet : Snippet :=
  ⟨[.placeholder ⟨1, "ab", none⟩, .text "-", .placeholder ⟨1, "ab", none⟩]⟩

/-- A template with no placeholder at all. -/
def plainSnippet : Snippet := ⟨[.text "hello"]⟩

/-- A template whose tab-stop indices have a gap (no index 2, no index 0). -/
def gapSnippet : Snippet :=
  ⟨[.placeholder ⟨1, "a", none⟩, .text "-", .placeholder ⟨3, "b", none⟩]⟩

/-- A concrete document whose bound line holds the sample rendering. -/
def docT : Doc :=
  { uri := "file:///t", lineCount := 10, changedtick := 6,
    getline := fun _ => "foo(bar, baz)" }

/-- A concrete environment resolving every uri to `docT`, with the cursor on
line 4 (zero-indexed 3) and a parser that rejects every template. -/
def envT : Env :=
  { getDocument := fun _ => some docT, cursorLine := 4,
    parse := fun _ => none, disableFails := false, writeOk := true }

/-- An active session over `sampleSnippet` bound to line 3 of `docT`. -/
def sT : MState :=
  { snippet := some sampleSnippet, activted := true, startLnum := 3,
    lineCount := 10, uri := "file:///t", currIndex := 1, changedtick := 5 }

/-- The change event for `docT`'s uri. -/
def evT : ChangeEvent := ⟨"file:///t"⟩

/-- State `sT` with the mirrored template. -/
def sM : MState := { sT with snippet := some mirrorSnippet }

/-- State `sT` focused on tab-stop 0. -/
def s0T : MState := { sT with currIndex := 0 }

/-- State `sT` deactivated. -/
def sI : MState := { sT with activted := false }

/-- A document whose line count no longer matches `sT.lineCount`. -/
def docL : Doc := { docT with lineCount := 11 }

/-- Environment resolving to `docL`. -/
def envL : Env := { envT with getDocument := fun _ => some docL }

/-- A document with a stale change counter (delta 4, not 1). -/
def docS : Doc := { docT with changedtick := 9 }

/-- Environment resolving to `docS`. -/
def envS : Env := { envT with getDocument := fun _ => some docS }

/-- Environment with `writeOk = false`: the initial write fails. -/
def envF : Env := { envT with writeOk := false }

/-- Environment whose cursor has left line 4. -/
def envX : Env := { envT with cursorLine := 9 }

/-- Session over the gapped template, focused on tab-stop 1. -/
def sG : MState := { sT with snippet := some gapSnippet }

/-- Active session over the placeholder-free template. -/
def sP : MState := { sT with snippet := some plainSnippet }

/-- The document after the reconciliation of `"foo(qux, baz)"`: the counter
advanced by one and the line holds the new content. -/
def docC : Doc :=
  { docT with changedtick := 7, getline := fun _ => "foo(qux, baz)" }

/-- Environment resolving to `docC`. -/
def envC : Env := { envT with getDocument := fun _ => some docC }

/-- Inactive session holding an older template model, about to receive a
failing `insertSnippet`. -/
def sQ : MState :=
  { snippet := some mirrorSnippet, activted := false, startLnum := 0,
    lineCount := 1, uri := "", currIndex := -1, changedtick := 0 }

theorem detach_eq (env : Env) (s : MState) :
    detach env s =
      if s.activted then
        (match s.snippet with
        | none => ({ s with activted := false, uri := "" }, ([] : List Effect))
        | some sn =>
          if sn.hasPlaceholder then
            ({ s with activted := false, uri := "", snippet := none }, [Effect.disable])
          else ({ s with activted := false, uri := "" }, ([] : List Effect)))
      else (s, []) := by
  unfold detach disableCall
  cases hA : s.activted <;> simp
  cases hs : s.snippet <;> simp
  cases hP : Snippet.hasPlaceholder _
  · simp
  · simp
    cases env.disableFails <;> simp

theorem detach_fst_activted (env : Env) (s : MState) :
    (detach env s).1.activted = false := by
  rw [detach_eq]
  cases hA : s.activted <;> simp [hA]
  cases hs : s.snippet <;> simp
  cases hP : Snippet.hasPlaceholder _ <;> simp

theorem detach_fst_currIndex (env : Env) (s : MState) :
    (detach env s).1.currIndex = s.currIndex := by
  rw [detach_eq]
  cases hA : s.activted <;> simp
  cases hs : s.snippet <;> simp
  cases hP : Snippet.hasPlaceholder _ <;> simp

theorem detach_snd_sub (env : Env) (s : MState) :
    (detach env s).2 = [] ∨ (detach env s).2 = [Effect.disable] := by
  rw [detach_eq]
  cases hA : s.activted <;> simp
  cases hs : s.snippet <;> simp
  cases hP : Snippet.hasPlaceholder _ <;> simp

theorem detach_snd_no_write (env : Env) (s : MState) :
    (detach env s).2.all (fun e => !e.isWrite) = true := by
  rcases detach_snd_sub env s with h | h <;> rw [h] <;> rfl

theorem detach_snd_no_jump (env : Env) (s : MState) :
    (detach env s).2.all (fun e => !e.isJump) = true := by
  rcases detach_snd_sub env s with h | h <;> rw [h] <;> rfl

theorem detach_fst_uri (env : Env) (s : MState) (hA : s.activted = true) :
    (detach env s).1.uri = "" := by
  rw [detach_eq]
  cases hs : s.snippet <;> simp [hA]
  cases hP : Snippet.hasPlaceholder _ <;> simp

theorem detach_disableFails_irrelevant (env : Env) (s : MState) (b : Bool) :
    detach { env with disableFails := b } s = detach env s := by
  rw [detach_eq, detach_eq]

/-- Helper: a change notification whose counter delta is exactly one is
ignored by `onDocumentChange` — no state change, no effect. -/
theorem onDocumentChange_delta_one (env : Env) (s : MState) (e : ChangeEvent)
    (doc : Doc) (hdoc : documentOf env s = some doc) (hact : s.activted = true)
    (huri : s.uri = e.uri) (hlc : doc.lineCount = s.lineCount)
    (htick : doc.changedtick - s.changedtick = 1) :
    onDocumentChange env s e = (s, []) := by
  unfold onDocumentChange
  rw [hdoc]
  simp [hact, huri, hlc]
  cases hs : s.snippet <;> simp [htick]
theorem onLineChange_eqn (env : Env) (s : MState) (content : String)
    (doc : Doc) (sn : Snippet) (change : ChangeItem)
    (hdoc : documentOf env s = some doc) (hsn : s.snippet = some sn)
    (hch : getChangeItem sn.render content = some change) :
    onLineChange env s content =
      match sn.findPlaceholder change.offset with
      | none => detach env s
      | some (p, start) =>
        if p.index = 0 then detach env s
        else
          (if (sn.replaceWith p.index (Snippet.getNewText p start change)).render
              = content then
            ({ s with
                snippet := some (sn.replaceWith p.index (Snippet.getNewText p start change)),
                changedtick := doc.changedtick }, [])
          else
            ({ s with
                snippet := some (sn.replaceWith p.index (Snippet.getNewText p start change)),
                changedtick := doc.changedtick },
             [Effect.write (sn.replaceWith p.index (Snippet.getNewText p start change)).render
                s.startLnum])) := by
  unfold onLineChange
  simp only [hdoc, hsn, hch]
theorem olc_detach_case (env : Env) (s : MState)
    (content : String) (doc : Doc) (sn : Snippet) (change : ChangeItem)
    (hdoc : documentOf env s = some doc) (hsn : s.snippet = some sn)
    (hch : getChangeItem sn.render content = some change)
    (hmiss : sn.findPlaceholder change.offset = none ∨
      ∃ p start, sn.findPlaceholder change.offset = some (p, start) ∧ p.index = 0) :
    onLineChange env s content = detach env s := by
  rw [onLineChange_eqn env s content doc sn change hdoc hsn hch]
  rcases hmiss with h | ⟨p, start, h, hidx⟩
  · rw [h]
  · rw [h]; simp [hidx]

theorem olc_update_case (env : Env) (s : MState)
    (content : String) (doc : Doc) (sn : Snippet) (change : ChangeItem)
    (p : Placeholder) (start : Nat)
    (hdoc : documentOf env s = some doc) (hsn : s.snippet = some sn)
    (hch : getChangeItem sn.render content = some change)
    (hfind : sn.findPlaceholder change.offset = some (p, start))
    (hidx : p.index ≠ 0) :
    (onLineChange env s content).1.snippet
        = some (sn.replaceWith p.index (Snippet.getNewText p start change)) ∧
    (onLineChange env s content).1.changedtick = doc.changedtick ∧
    (onLineChange env s content).1.activted = s.activted ∧
    (onLineChange env s content).1.uri = s.uri ∧
    (onLineChange env s content).1.lineCount = s.lineCount ∧
    (onLineChange env s content).2 =
      (if (sn.replaceWith p.index (Snippet.getNewText p start change)).render = content
       then [] else
        [Effect.write (sn.replaceWith p.index (Snippet.getNewText p start change)).render
          s.startLnum]) := by
  rw [onLineChange_eqn env s content doc sn change hdoc hsn hch, hfind]
  by_cases hr :
      (sn.replaceWith p.index (Snippet.getNewText p start change)).render = content <;>
    simp [hidx, hr]
theorem jumpTo_sync (env : Env) (s : MState) (sn : Snippet) (doc : Doc) (p : Placeholder)
    (hsn : s.snippet = some sn) (hdoc : documentOf env s = some doc)
    (hline : sn.render = doc.getline s.startLnum) :
    (jumpTo env s p).1 = { s with currIndex := p.index } := by
  unfold jumpTo ensureCurrentLine
  simp [hdoc, hsn, hline]

theorem jumpNext_invalid (env : Env) (s : MState) (sn : Snippet)
    (hsn : s.snippet = some sn) (hpos : env.cursorLine - 1 ≠ s.startLnum) :
    jumpNext env s = detach env s := by
  unfold jumpNext checkPosition
  simp [hsn, hpos]

theorem jumpPrev_invalid (env : Env) (s : MState) (sn : Snippet)
    (hsn : s.snippet = some sn) (hpos : env.cursorLine - 1 ≠ s.startLnum) :
    jumpPrev env s = detach env s := by
  unfold jumpPrev checkPosition
  simp [hsn, hpos]

theorem jumpNext_no_placeholder (env : Env) (s : MState) (sn : Snippet)
    (hsn : s.snippet = some sn) (hpos : env.cursorLine - 1 = s.startLnum)
    (hfind : sn.placeholders.find?
        (fun p => p.index == (if s.currIndex = sn.maxIndex then 0 else s.currIndex + 1))
        = none) :
    jumpNext env s =
      ({ s with currIndex := if s.currIndex = sn.maxIndex then 0 else s.currIndex + 1 },
       []) := by
  unfold jumpNext checkPosition
  simp [hsn, hpos, hfind]

theorem jumpPrev_no_placeholder (env : Env) (s : MState) (sn : Snippet)
    (hsn : s.snippet = some sn) (hpos : env.cursorLine - 1 = s.startLnum)
    (hfind : sn.placeholders.find?
        (fun p => p.index == (if s.currIndex = 0 then sn.maxIndex else s.currIndex - 1))
        = none) :
    jumpPrev env s =
      ({ s with currIndex := if s.currIndex = 0 then sn.maxIndex else s.currIndex - 1 },
       []) := by
  unfold jumpPrev checkPosition
  simp [hsn, hpos, hfind]

theorem jumpNext_step (env : Env) (s : MState) (sn : Snippet) (doc : Doc)
    (hsn : s.snippet = some sn) (hpos : env.cursorLine - 1 = s.startLnum)
    (hdoc : documentOf env s = some doc)
    (hline : sn.render = doc.getline s.startLnum) :
    (jumpNext env s).1 =
      { s with currIndex := if s.currIndex = sn.maxIndex then 0 else s.currIndex + 1 } := by
  unfold jumpNext checkPosition
  simp only [hsn, hpos, ne_eq, not_true_eq_false, if_false, Bool.not_false, if_true]
  cases hf : sn.placeholders.find?
      (fun p => p.index == (if s.currIndex = sn.maxIndex then 0 else s.currIndex + 1)) with
  | none => simp
  | some p =>
    have hp : p.index = (if s.currIndex = sn.maxIndex then 0 else s.currIndex + 1) := by
      simpa using List.find?_some hf
    have hsync := jumpTo_sync env
      { s with snippet := some sn,
               currIndex := if s.currIndex = sn.maxIndex then 0 else s.currIndex + 1 }
      sn doc p rfl (by simpa [documentOf] using hdoc) (by simpa using hline)
    simp [hsync, hp]
theorem jumpPrev_step (env : Env) (s : MState) (sn : Snippet) (doc : Doc)
    (hsn : s.snippet = some sn) (hpos : env.cursorLine - 1 = s.startLnum)
    (hdoc : documentOf env s = some doc)
    (hline : sn.render = doc.getline s.startLnum) :
    (jumpPrev env s).1 =
      { s with currIndex := if s.currIndex = 0 then sn.maxIndex else s.currIndex - 1 } := by
  unfold jumpPrev checkPosition
  simp only [hsn, hpos, ne_eq, not_true_eq_false, if_false, Bool.not_false, if_true]
  cases hf : sn.placeholders.find?
      (fun p => p.index == (if s.currIndex = 0 then sn.maxIndex else s.currIndex - 1)) with
  | none => simp
  | some p =>
    have hp : p.index = (if s.currIndex = 0 then sn.maxIndex else s.currIndex - 1) := by
      simpa using List.find?_some hf
    have hsync := jumpTo_sync env
      { s with snippet := some sn,
               currIndex := if s.currIndex = 0 then sn.maxIndex else s.currIndex - 1 }
      sn doc p rfl (by simpa [documentOf] using hdoc) (by simpa using hline)
    simp [hsync, hp]

theorem foldl_max_init_le (l : List Int) : ∀ a : Int, a ≤ l.foldl max a := by
  induction l with
  | nil => intro a; exact le_refl a
  | cons x xs ih => intro a; exact le_trans (le_max_left a x) (ih (max a x))

theorem maxIndex_nonneg (sn : Snippet) : 0 ≤ sn.maxIndex :=
  foldl_max_init_le _ 0

theorem nextIdx_iter_aux (m : Int) : ∀ k : Nat, (k : Int) ≤ m →
    (fun c : Int => if c = m then 0 else c + 1)^[k] 0 = k := by
  intro k
  induction k with
  | zero => intro _; rfl
  | succ n ih =>
    intro hk
    rw [Function.iterate_succ_apply', ih (by push_cast at hk ⊢; omega)]
    have hne : (n : Int) ≠ m := by push_cast at hk; omega
    simp only [hne, if_false]
    push_cast
    ring

theorem nextIdx_iter (m : Int) (hm : 0 ≤ m) :
    (fun c : Int => if c = m then 0 else c + 1)^[m.toNat + 1] 0 = 0 := by
  rw [Function.iterate_succ_apply',
    nextIdx_iter_aux m m.toNat (by rw [Int.toNat_of_nonneg hm])]
  simp [Int.toNat_of_nonneg hm]

theorem prevIdx_iter_aux (m : Int) : ∀ k : Nat, (k : Int) ≤ m →
    (fun c : Int => if c = 0 then m else c - 1)^[k + 1] 0 = m - k := by
  intro k
  induction k with
  | zero => intro _; simp
  | succ n ih =>
    intro hk
    rw [Function.iterate_succ_apply', ih (by push_cast at hk ⊢; omega)]
    have hne : m - (n : Int) ≠ 0 := by push_cast at hk; omega
    simp only [hne, if_false]
    push_cast
    ring

theorem prevIdx_iter (m : Int) (hm : 0 ≤ m) :
    (fun c : Int => if c = 0 then m else c - 1)^[m.toNat + 1] 0 = 0 := by
  rw [prevIdx_iter_aux m m.toNat (by rw [Int.toNat_of_nonneg hm])]
  simp [Int.toNat_of_nonneg hm]
theorem jumpNext_iter (env : Env) (s : MState) (sn : Snippet) (doc : Doc)
    (hsn : s.snippet = some sn) (hpos : env.cursorLine - 1 = s.startLnum)
    (hdoc : documentOf env s = some doc)
    (hline : sn.render = doc.getline s.startLnum) :
    ∀ k : Nat, (fun st => (jumpNext env st).1)^[k] s =
      { s with currIndex :=
          (fun c : Int => if c = sn.maxIndex then 0 else c + 1)^[k] s.currIndex } := by
  intro k
  induction k with
  | zero => simp
  | succ n ih =>
    rw [Function.iterate_succ_apply', Function.iterate_succ_apply', ih]
    rw [jumpNext_step env _ sn doc (by simpa using hsn) (by simpa using hpos)
      (by simpa [documentOf] using hdoc) (by simpa using hline)]

theorem jumpPrev_iter (env : Env) (s : MState) (sn : Snippet) (doc : Doc)
    (hsn : s.snippet = some sn) (hpos : env.cursorLine - 1 = s.startLnum)
    (hdoc : documentOf env s = some doc)
    (hline : sn.render = doc.getline s.startLnum) :
    ∀ k : Nat, (fun st => (jumpPrev env st).1)^[k] s =
      { s with currIndex :=
          (fun c : Int => if c = 0 then sn.maxIndex else c - 1)^[k] s.currIndex } := by
  intro k
  induction k with
  | zero => simp
  | succ n ih =>
    rw [Function.iterate_succ_apply', Function.iterate_succ_apply', ih]
    rw [jumpPrev_step env _ sn doc (by simpa using hsn) (by simpa using hpos)
      (by simpa [documentOf] using hdoc) (by simpa using hline)]
/-- C1: while the session is active and bound to the event's document with an
unchanged line count, a change notification whose counter delta is exactly 1
is recognized as the session's own prior write and has no effect at all: no
detach, no model update, no document write (the handler returns the state
unchanged with an empty effect list), so a self-caused write followed by its
own notification yields no further write. -/
theorem claim1_self_notification_ignored (env : Env) (s : MState) (e : ChangeEvent)
    (doc : Doc) (sn : Snippet)
    (hdoc : documentOf env s = some doc) (_hsn : s.snippet = some sn)
    (hact : s.activted = true) (huri : s.uri = e.uri)
    (hlc : doc.lineCount = s.lineCount)
    (htick : doc.changedtick - s.changedtick = 1) :
    onDocumentChange env s e = (s, []) :=
  onDocumentChange_delta_one env s e doc hdoc hact huri hlc htick

/-- C2: when the diff of `onLineChange` yields a change region but no
placeholder contains its start offset, or the containing placeholder is the
reserved final-cursor placeholder (index 0), the session detaches: the call
is exactly a `detach`, the resulting state is inactive, and no document
write is performed. -/
theorem claim2_edit_outside_placeholder_detaches (env : Env) (s : MState)
    (content : String) (doc : Doc) (sn : Snippet) (change : ChangeItem)
    (hdoc : documentOf env s = some doc) (hsn : s.snippet = some sn)
    (hch : getChangeItem sn.render content = some change)
    (hmiss : sn.findPlaceholder change.offset = none ∨
      ∃ p start, sn.findPlaceholder change.offset = some (p, start) ∧ p.index = 0) :
    onLineChange env s content = detach env s ∧
    (onLineChange env s content).1.activted = false ∧
    (onLineChange env s content).2.all (fun eff => !eff.isWrite) = true := by
  have heq := olc_detach_case env s content doc sn change hdoc hsn hch hmiss
  refine ⟨heq, ?_, ?_⟩
  · rw [heq]; exact detach_fst_activted env s
  · rw [heq]; exact detach_snd_no_write env s

/-- C3: when `onLineChange` locates a valid non-terminal placeholder, the
placeholder's value (and its mirrors) is updated via the splice, the model
is re-rendered, the session records the document's current change counter
(the pre-write value), and a write of the re-rendered line is issued if and
only if it differs from `newContent`. -/
theorem claim3_reconcile_update_write_iff (env : Env) (s : MState)
    (content : String) (doc : Doc) (sn : Snippet) (change : ChangeItem)
    (p : Placeholder) (start : Nat)
    (hdoc : documentOf env s = some doc) (hsn : s.snippet = some sn)
    (hch : getChangeItem sn.render content = some change)
    (hfind : sn.findPlaceholder change.offset = some (p, start))
    (hidx : p.index ≠ 0) :
    (onLineChange env s content).1.snippet
        = some (sn.replaceWith p.index (Snippet.getNewText p start change)) ∧
    (onLineChange env s content).1.changedtick = doc.changedtick ∧
    (onLineChange env s content).2 =
      (if (sn.replaceWith p.index (Snippet.getNewText p start change)).render = content
       then []
       else [Effect.write
              (sn.replaceWith p.index (Snippet.getNewText p start change)).render
              s.startLnum]) := by
  have h := olc_update_case env s content doc sn change p start hdoc hsn hch hfind hidx
  exact ⟨h.1, h.2.1, h.2.2.2.2.2⟩

/-- C4: tab-stop navigation is cyclic with wraparound.  While the cursor
stays on the bound line and the document line agrees with the rendered
model, `jumpNext` maps a focused index equal to `maxIndex` to 0 and any
other to `currIndex + 1`; `jumpPrev` maps 0 to `maxIndex` and any other to
`currIndex - 1`; hence iterating `jumpNext` (resp. `jumpPrev`)
`maxIndex + 1` times from focused index 0 returns the focused index to 0. -/
theorem claim4_navigation_cyclic (env : Env) (s : MState) (sn : Snippet) (doc : Doc)
    (_hact : s.activted = true)
    (hsn : s.snippet = some sn) (hpos : env.cursorLine - 1 = s.startLnum)
    (hdoc : documentOf env s = some doc)
    (hline : sn.render = doc.getline s.startLnum) :
    ((jumpNext env s).1.currIndex
        = (if s.currIndex = sn.maxIndex then 0 else s.currIndex + 1)) ∧
    ((jumpPrev env s).1.currIndex
        = (if s.currIndex = 0 then sn.maxIndex else s.currIndex - 1)) ∧
    (s.currIndex = 0 →
      ((fun st => (jumpNext env st).1)^[sn.maxIndex.toNat + 1] s).currIndex = 0) ∧
    (s.currIndex = 0 →
      ((fun st => (jumpPrev env st).1)^[sn.maxIndex.toNat + 1] s).currIndex = 0) := by
  refine ⟨?_, ?_, ?_, ?_⟩
  · rw [jumpNext_step env s sn doc hsn hpos hdoc hline]
  · rw [jumpPrev_step env s sn doc hsn hpos hdoc hline]
  · intro h0
    rw [jumpNext_iter env s sn doc hsn hpos hdoc hline]
    simp only [h0]
    exact nextIdx_iter sn.maxIndex (maxIndex_nonneg sn)
  · intro h0
    rw [jumpPrev_iter env s sn doc hsn hpos hdoc hline]
    simp only [h0]
    exact prevIdx_iter sn.maxIndex (maxIndex_nonneg sn)
/-- C5: `onDocumentChange` has no effect when the session is inactive, the
bound document is unresolved, or the event is for a different uri; when
active and bound, a line-count change detaches the session; and a stale
counter (delta not exactly 1) combined with content byte-identical to the
rendered model also detaches the session. -/
theorem claim5_onDocumentChange_guards (env : Env) (s : MState) (e : ChangeEvent) :
    ((s.activted = false ∨ documentOf env s = none ∨ s.uri ≠ e.uri) →
      onDocumentChange env s e = (s, [])) ∧
    (∀ doc : Doc, documentOf env s = some doc → s.activted = true → s.uri = e.uri →
      doc.lineCount ≠ s.lineCount →
      onDocumentChange env s e = detach env s ∧
      (onDocumentChange env s e).1.activted = false) ∧
    (∀ (doc : Doc) (sn : Snippet), documentOf env s = some doc → s.activted = true →
      s.uri = e.uri → doc.lineCount = s.lineCount → s.snippet = some sn →
      doc.changedtick - s.changedtick ≠ 1 → doc.getline s.startLnum = sn.render →
      onDocumentChange env s e = detach env s ∧
      (onDocumentChange env s e).1.activted = false) := by
  refine ⟨?_, ?_, ?_⟩
  · rintro (hact | hdoc | huri)
    · unfold onDocumentChange
      cases hd : documentOf env s <;> simp [hact]
    · unfold onDocumentChange
      rw [hdoc]
    · unfold onDocumentChange
      cases hd : documentOf env s <;> simp [huri]
  · intro doc hdoc hact huri hlc
    have heq : onDocumentChange env s e = detach env s := by
      unfold onDocumentChange
      rw [hdoc]
      simp [hact, huri, hlc]
    exact ⟨heq, by rw [heq]; exact detach_fst_activted env s⟩
  · intro doc sn hdoc hact huri hlc hsn htick hline
    have heq : onDocumentChange env s e = detach env s := by
      unfold onDocumentChange
      rw [hdoc]
      simp [hact, huri, hlc, hsn, htick, hline]
    exact ⟨heq, by rw [heq]; exact detach_fst_activted env s⟩

/-- C6: `insertSnippet` detaches an active session first (its effect trace
begins with the detach's effects), never leaves the session active (the
method never sets the active flag; `attach` is a separate step), and a parse
failure or a failed initial write is caught — modelled by the function being
total — and produces no document write. -/
theorem claim6_insertSnippet_failure_safe (env : Env) (s : MState) (doc : Doc)
    (line : Int) (tmpl : String) :
    ((insertSnippet env s doc line tmpl).1.activted = false) ∧
    (s.activted = true →
      ∃ rest, (insertSnippet env s doc line tmpl).2 = (detach env s).2 ++ rest) ∧
    (env.parse tmpl = none →
      (insertSnippet env s doc line tmpl).2.all (fun eff => !eff.isWrite) = true) ∧
    (env.writeOk = false →
      (insertSnippet env s doc line tmpl).2.all (fun eff => !eff.isWrite) = true) := by
  refine ⟨?_, ?_, ?_, ?_⟩
  · unfold insertSnippet
    cases hp : env.parse tmpl <;> cases hw : env.writeOk <;>
      cases hA : s.activted <;> simp [hp, hw, hA, detach_fst_activted]
  · intro hA
    unfold insertSnippet
    cases hp : env.parse tmpl <;> cases hw : env.writeOk <;> simp [hp, hw, hA]
  · intro hp
    unfold insertSnippet
    cases hA : s.activted <;> simp [hp, hA, detach_snd_no_write]
  · intro hw
    unfold insertSnippet
    cases hp : env.parse tmpl <;> cases hA : s.activted <;>
      simp [hp, hw, hA, detach_snd_no_write]

/-- C7: for `jumpNext` and `jumpPrev`, an invalid cursor position (cursor no
longer on the bound line) makes the call exactly the detach performed by
`checkPosition`: the focused index is unchanged, the state inactive, and no
navigation affordance is issued; with a valid position but no placeholder at
the computed wraparound index, the focused index is still set to that index
and no jump call is issued (empty effect list). -/
theorem claim7_jump_guard_and_missing_index (env : Env) (s : MState) (sn : Snippet)
    (hsn : s.snippet = some sn) :
    (env.cursorLine - 1 ≠ s.startLnum →
      jumpNext env s = detach env s ∧
      (jumpNext env s).1.currIndex = s.currIndex ∧
      (jumpNext env s).1.activted = false ∧
      (jumpNext env s).2.all (fun eff => !eff.isJump) = true) ∧
    (env.cursorLine - 1 ≠ s.startLnum →
      jumpPrev env s = detach env s ∧
      (jumpPrev env s).1.currIndex = s.currIndex ∧
      (jumpPrev env s).1.activted = false ∧
      (jumpPrev env s).2.all (fun eff => !eff.isJump) = true) ∧
    (env.cursorLine - 1 = s.startLnum →
      sn.placeholders.find?
        (fun p => p.index == (if s.currIndex = sn.maxIndex then 0 else s.currIndex + 1))
        = none →
      jumpNext env s =
        ({ s with currIndex := if s.currIndex = sn.maxIndex then 0 else s.currIndex + 1 },
         [])) ∧
    (env.cursorLine - 1 = s.startLnum →
      sn.placeholders.find?
        (fun p => p.index == (if s.currIndex = 0 then sn.maxIndex else s.currIndex - 1))
        = none →
      jumpPrev env s =
        ({ s with currIndex := if s.currIndex = 0 then sn.maxIndex else s.currIndex - 1 },
         [])) := by
  refine ⟨?_, ?_, ?_, ?_⟩
  · intro hpos
    have heq := jumpNext_invalid env s sn hsn hpos
    refine ⟨heq, ?_, ?_, ?_⟩
    · rw [heq]; exact detach_fst_currIndex env s
    · rw [heq]; exact detach_fst_activted env s
    · rw [heq]; exact detach_snd_no_jump env s
  · intro hpos
    have heq := jumpPrev_invalid env s sn hsn hpos
    refine ⟨heq, ?_, ?_, ?_⟩
    · rw [heq]; exact detach_fst_currIndex env s
    · rw [heq]; exact detach_fst_activted env s
    · rw [heq]; exact detach_snd_no_jump env s
  · exact jumpNext_no_placeholder env s sn hsn
  · exact jumpPrev_no_placeholder env s sn hsn

/-- C8: `detach` never propagates an error: it is a no-op when inactive;
when active it always ends inactive with the bound uri cleared; when the
template has no placeholder it returns at once, keeping the model; and the
outcome is independent of whether the host's disable-snippet-mode call
fails (the failure is caught and logged).  Totality of the definition
models that no exception reaches the caller. -/
theorem claim8_detach_never_fails (env : Env) (s : MState) :
    (s.activted = false → detach env s = (s, [])) ∧
    ((detach env s).1.activted = false) ∧
    (s.activted = true → (detach env s).1.uri = "") ∧
    (∀ sn : Snippet, s.activted = true → s.snippet = some sn →
      sn.hasPlaceholder = false →
      detach env s = ({ s with activted := false, uri := "" }, [])) ∧
    (∀ b : Bool, detach { env with disableFails := b } s = detach env s) := by
  refine ⟨?_, detach_fst_activted env s, detach_fst_uri env s, ?_, ?_⟩
  · intro hA
    rw [detach_eq, hA]
    simp
  · intro sn hA hsn hP
    rw [detach_eq, hA, hsn]
    simp [hP]
  · exact detach_disableFails_irrelevant env s
/-- C9: when `onLineChange` locates a valid non-terminal placeholder, the
session's change-counter field is set to the document's current counter even
when the re-rendered text equals the new content and no write is issued;
consequently a later change notification whose counter is exactly one past
that recorded value is ignored by `onDocumentChange` although no session
write caused it. -/
theorem claim9_tick_recorded_without_write (env env' : Env) (s : MState)
    (content : String) (doc doc' : Doc) (sn : Snippet) (change : ChangeItem)
    (p : Placeholder) (start : Nat) (e : ChangeEvent)
    (hdoc : documentOf env s = some doc) (hsn : s.snippet = some sn)
    (hch : getChangeItem sn.render content = some change)
    (hfind : sn.findPlaceholder change.offset = some (p, start))
    (hidx : p.index ≠ 0)
    (hsame : (sn.replaceWith p.index (Snippet.getNewText p start change)).render
        = content)
    (hdoc' : documentOf env' (onLineChange env s content).1 = some doc')
    (hact' : (onLineChange env s content).1.activted = true)
    (huri' : (onLineChange env s content).1.uri = e.uri)
    (hlc' : doc'.lineCount = (onLineChange env s content).1.lineCount)
    (htick' : doc'.changedtick = doc.changedtick + 1) :
    (onLineChange env s content).1.changedtick = doc.changedtick ∧
    (onLineChange env s content).2 = [] ∧
    onDocumentChange env' (onLineChange env s content).1 e
      = ((onLineChange env s content).1, []) := by
  have h := olc_update_case env s content doc sn change p start hdoc hsn hch hfind hidx
  have htick1 : (onLineChange env s content).1.changedtick = doc.changedtick := h.2.1
  refine ⟨htick1, ?_, ?_⟩
  · rw [h.2.2.2.2.2, hsame]
    simp
  · exact onDocumentChange_delta_one env' _ e doc' hdoc' hact' huri' hlc'
      (by rw [htick1, htick']; ring)

/-- C10: `insertSnippet` is not atomic on failure: the session's uri is
bound to the target document before parse or write can fail, so after any
call — including failed ones — the `document` getter resolves the target
document; and a parse failure leaves the template-model reference exactly
what it was after the initial detach (unchanged from the caller's state
when the session was inactive). -/
theorem claim10_insertSnippet_binds_uri_early (env : Env) (s : MState)
    (doc : Doc) (line : Int) (tmpl : String) :
    ((insertSnippet env s doc line tmpl).1.uri = doc.uri) ∧
    (env.getDocument doc.uri = some doc →
      documentOf env (insertSnippet env s doc line tmpl).1 = some doc) ∧
    (env.parse tmpl = none →
      (insertSnippet env s doc line tmpl).1.snippet
        = (if s.activted then (detach env s).1 else s).snippet) := by
  have huri : (insertSnippet env s doc line tmpl).1.uri = doc.uri := by
    unfold insertSnippet
    cases hp : env.parse tmpl <;> cases hw : env.writeOk <;>
      cases hA : s.activted <;> simp [hp, hw, hA]
  refine ⟨huri, ?_, ?_⟩
  · intro hget
    rw [documentOf, huri, hget]
  · intro hp
    unfold insertSnippet
    cases hA : s.activted <;> simp [hp, hA]

theorem claim1_witness : onDocumentChange envT sT evT = (sT, []) :=
  claim1_self_notification_ignored envT sT evT docT sampleSnippet
    rfl rfl rfl rfl rfl (by decide)

theorem claim2_witness :
    onLineChange envT sT ("fXoo(bar, baz)") = detach envT sT ∧
    (onLineChange envT sT ("fXoo(bar, baz)")).1.activted = false ∧
    (onLineChange envT sT ("fXoo(bar, baz)")).2.all (fun eff => !eff.isWrite) = true :=
  claim2_edit_outside_placeholder_detaches envT sT ("fXoo(bar, baz)") docT
    sampleSnippet ⟨1, 0, "X"⟩ rfl rfl (by decide) (Or.inl (by decide))

theorem claim3_witness :
    (onLineChange envT sM ("axb-ab")).1.snippet
      = some (mirrorSnippet.replaceWith 1
          (Snippet.getNewText ⟨1, "ab", none⟩ 0 ⟨1, 0, "x"⟩)) ∧
    (onLineChange envT sM ("axb-ab")).1.changedtick = docT.changedtick ∧
    (onLineChange envT sM ("axb-ab")).2 =
      (if (mirrorSnippet.replaceWith 1
            (Snippet.getNewText ⟨1, "ab", none⟩ 0 ⟨1, 0, "x"⟩)).render = "axb-ab"
       then []
       else [Effect.write
              (mirrorSnippet.replaceWith 1
                (Snippet.getNewText ⟨1, "ab", none⟩ 0 ⟨1, 0, "x"⟩)).render
              sM.startLnum]) :=
  claim3_reconcile_update_write_iff envT sM ("axb-ab") docT mirrorSnippet
    ⟨1, 0, "x"⟩ ⟨1, "ab", none⟩ 0 rfl rfl (by decide) (by decide) (by decide)

theorem claim4_witness :
    ((fun st => (jumpNext envT st).1)^[sampleSnippet.maxIndex.toNat + 1] s0T).currIndex
      = 0 ∧
    ((fun st => (jumpPrev envT st).1)^[sampleSnippet.maxIndex.toNat + 1] s0T).currIndex
      = 0 := by
  have h := claim4_navigation_cyclic envT s0T sampleSnippet docT
    rfl rfl (by decide) rfl rfl
  exact ⟨h.2.2.1 rfl, h.2.2.2 rfl⟩

theorem claim5_witness :
    onDocumentChange envT sI evT = (sI, []) ∧
    onDocumentChange envL sT evT = detach envL sT ∧
    onDocumentChange envS sT evT = detach envS sT := by
  refine ⟨(claim5_onDocumentChange_guards envT sI evT).1 (Or.inl rfl), ?_, ?_⟩
  · exact ((claim5_onDocumentChange_guards envL sT evT).2.1 docL
      rfl rfl rfl (by decide)).1
  · exact ((claim5_onDocumentChange_guards envS sT evT).2.2 docS sampleSnippet
      rfl rfl rfl rfl rfl (by decide) rfl).1

theorem claim6_witness :
    (insertSnippet envT sT docT 3 ("x")).1.activted = false ∧
    (∃ rest, (insertSnippet envT sT docT 3 ("x")).2 = (detach envT sT).2 ++ rest) ∧
    (insertSnippet envT sT docT 3 ("x")).2.all (fun eff => !eff.isWrite) = true ∧
    (insertSnippet envF sT docT 3 ("x")).2.all (fun eff => !eff.isWrite) = true := by
  have h := claim6_insertSnippet_failure_safe envT sT docT 3 ("x")
  have hF := claim6_insertSnippet_failure_safe envF sT docT 3 ("x")
  exact ⟨h.1, h.2.1 rfl, h.2.2.1 rfl, hF.2.2.2 rfl⟩

theorem claim7_witness :
    jumpNext envX sT = detach envX sT ∧
    jumpPrev envX sT = detach envX sT ∧
    jumpNext envT sG =
      ({ sG with currIndex :=
          if sG.currIndex = gapSnippet.maxIndex then 0 else sG.currIndex + 1 }, []) ∧
    jumpPrev envT sG =
      ({ sG with currIndex :=
          if sG.currIndex = 0 then gapSnippet.maxIndex else sG.currIndex - 1 }, []) := by
  have hx := claim7_jump_guard_and_missing_index envX sT sampleSnippet rfl
  have hg := claim7_jump_guard_and_missing_index envT sG gapSnippet rfl
  exact ⟨(hx.1 (by decide)).1, (hx.2.1 (by decide)).1,
    hg.2.2.1 (by decide) (by decide), hg.2.2.2 (by decide) (by decide)⟩

theorem claim8_witness :
    detach envT sP = ({ sP with activted := false, uri := "" }, []) ∧
    (detach envT sP).1.activted = false ∧
    (detach envT sP).1.uri = "" ∧
    detach { envT with disableFails := true } sP = detach envT sP := by
  have h := claim8_detach_never_fails envT sP
  exact ⟨h.2.2.2.1 plainSnippet rfl rfl rfl, h.2.1, h.2.2.1 rfl, h.2.2.2.2 true⟩

theorem claim9_witness :
    (onLineChange envT sT ("foo(qux, baz)")).1.changedtick = docT.changedtick ∧
    (onLineChange envT sT ("foo(qux, baz)")).2 = [] ∧
    onDocumentChange envC (onLineChange envT sT ("foo(qux, baz)")).1 evT
      = ((onLineChange envT sT ("foo(qux, baz)")).1, []) :=
  claim9_tick_recorded_without_write envT envC sT ("foo(qux, baz)") docT docC
    sampleSnippet ⟨4, 3, "qux"⟩ ⟨1, "bar", none⟩ 4 evT
    rfl rfl (by decide) (by decide) (by decide) (by decide)
    rfl (by decide) (by decide) (by decide) (by decide)

theorem claim10_witness :
    (insertSnippet envT sQ docT 3 ("bad")).1.uri = docT.uri ∧
    documentOf envT (insertSnippet envT sQ docT 3 ("bad")).1 = some docT ∧
    (insertSnippet envT sQ docT 3 ("bad")).1.snippet
      = (if sQ.activted then (detach envT sQ).1 else sQ).snippet := by
  have h := claim10_insertSnippet_binds_uri_early envT sQ docT 3 ("bad")
  exact ⟨h.1, h.2.1 rfl, h.2.2 rfl⟩

end Coc
